import Mathlib

/-!
Shallow embedding of `src/_WithGuard.h`: a scoped guard (`no_gil`) that
releases the Python GIL on construction and reacquires it on destruction,
and template machinery (`guarded_function`, `mpl_signature`, `with_aux`,
`with`) that wraps a native callable so that every invocation through the
binding layer runs with the GIL released.

Modelling choices:
  * The interpreter-global state is made explicit (`InterpState`): whether
    the GIL is held, a counter from which fresh saved-thread-state tokens
    are drawn, and a trace of observable release/restore events.  The
    trace plays the role of the "instrumented guard recording
    release/restore timestamps" the specification appeals to.
  * `PyEval_SaveThread` / `PyEval_RestoreThread` are the two interpreter
    primitives the header calls; they are modelled as the only operations
    that touch the GIL flag and the trace.
  * A wrapped native callable receives its arguments and may observe the
    interpreter state at the moment it is invoked, and either returns a
    value or raises an error (`Except`).  C++ exceptions thrown by the
    callable become `Except.error`; C++ scope exit (which runs the guard
    destructor on both the normal and the unwinding path) becomes the
    unconditional application of `no_gil.destroy` after the callable's
    result is computed.
  * C++ call operators take their parameters by value (`A1 a1`, ...);
    in the embedding each call operator receives the argument values and
    passes them on to the stored callable in the same left-to-right
    order.
-/

set_option autoImplicit false

namespace WithGuard

/-- A saved-execution-state token (`PyThreadState*`).  Tokens are drawn
from the interpreter's fresh-token counter, so distinct guard
constructions receive distinct tokens. -/
structure PyThreadState where
  id : Nat
deriving DecidableEq, Repr

/-- Observable GIL events: a release returning a token
(`PyEval_SaveThread`) and a restore consuming a token
(`PyEval_RestoreThread`). -/
inductive GilEvent where
  | release (tok : PyThreadState)
  | restore (tok : PyThreadState)
deriving DecidableEq, Repr

/-- The interpreter-global state threaded through the embedding:
whether the calling thread holds the GIL, the counter from which fresh
tokens are drawn, and the trace of release/restore events so far. -/
structure InterpState where
  gilHeld : Bool
  nextId : Nat
  trace : List GilEvent
deriving DecidableEq, Repr

/-- `PyEval_SaveThread()`: releases the GIL and returns the saved
thread state.  Modelled as: the GIL flag drops, a fresh token is
drawn, and a release event carrying that token is appended to the
trace. -/
def PyEval_SaveThread (s : InterpState) : PyThreadState × InterpState :=
  (⟨s.nextId⟩,
   { gilHeld := false
     nextId := s.nextId + 1
     trace := s.trace ++ [GilEvent.release ⟨s.nextId⟩] })

/-- `PyEval_RestoreThread(tstate)`: reacquires the GIL and restores the
given saved thread state.  Modelled as: the GIL flag rises and a
restore event carrying exactly the given token is appended to the
trace. -/
def PyEval_RestoreThread (tok : PyThreadState) (s : InterpState) : InterpState :=
  { s with gilHeld := true, trace := s.trace ++ [GilEvent.restore tok] }

/-- The scoped guard `no_gil`: it owns the single saved-state token
`_state` for its lifetime. -/
structure no_gil where
  _state : PyThreadState
deriving DecidableEq, Repr

/-- The constructor `no_gil() { _state = PyEval_SaveThread(); }`:
releases the GIL and stores the returned token. -/
def no_gil.construct (s : InterpState) : no_gil × InterpState :=
  let r := PyEval_SaveThread s
  (⟨r.1⟩, r.2)

/-- The destructor `~no_gil() { PyEval_RestoreThread(_state); }`:
passes the stored token, unchanged, to the restore primitive. -/
def no_gil.destroy (g : no_gil) (s : InterpState) : InterpState :=
  PyEval_RestoreThread g._state s

/-- The implicitly-generated C++ copy constructor of `no_gil`.  The
header declares no copy constructor and does not delete it, so C++
generates the memberwise copy, which duplicates `_state` without
calling `PyEval_SaveThread`. -/
def no_gil.copy (g : no_gil) : no_gil :=
  ⟨g._state⟩

/-- The interface a guard type presents to `guarded_function<_, Guard>`:
default construction and destruction (`Guard g;` at scope entry,
implicit destructor at scope exit). -/
structure GuardOps (G : Type) where
  construct : InterpState → G × InterpState
  destroy : G → InterpState → InterpState

/-- `no_gil` as a guard type. -/
def no_gil.ops : GuardOps no_gil :=
  ⟨no_gil.construct, no_gil.destroy⟩

/-- `detail::guarded_function<Signature, Guard>`: a functor holding the
wrapped callable `fn_` (a `boost::function<Signature>`, stored by
value).  `γ` is the tuple of argument types of `Signature`, `β` its
result type, `E` the type of errors the callable may raise. -/
structure guarded_function (γ β E : Type) where
  fn_ : γ → InterpState → Except E β

/-- The converting constructor `guarded_function(Fn fn) : fn_(fn)`:
stores the callable by value. -/
def guarded_function.ofFn {γ β E : Type} (fn : γ → InterpState → Except E β) :
    guarded_function γ β E :=
  ⟨fn⟩

/-- `result_type operator()()`: `Guard g; return fn_();`.  The guard is
constructed, the callable runs against the post-release state, and the
guard is destroyed before the result is returned — on the error path
exactly as on the normal one (C++ runs the destructor during unwinding).
The third component is the functor after the call: its body never
assigns to `fn_`, so the functor is returned unchanged. -/
def guarded_function.call0 {G β E : Type} (ops : GuardOps G)
    (gf : guarded_function Unit β E) (s : InterpState) :
    (Except E β × InterpState) × guarded_function Unit β E :=
  let gs := ops.construct s
  ((gf.fn_ () gs.2, ops.destroy gs.1 gs.2), gf)

/-- `result_type operator()(A1 a1)`: `Guard g; return fn_(a1);`. -/
def guarded_function.call1 {G α1 β E : Type} (ops : GuardOps G)
    (gf : guarded_function α1 β E) (a1 : α1) (s : InterpState) :
    (Except E β × InterpState) × guarded_function α1 β E :=
  let gs := ops.construct s
  ((gf.fn_ a1 gs.2, ops.destroy gs.1 gs.2), gf)

/-- `result_type operator()(A1 a1, A2 a2)`: `Guard g; return fn_(a1, a2);`. -/
def guarded_function.call2 {G α1 α2 β E : Type} (ops : GuardOps G)
    (gf : guarded_function (α1 × α2) β E) (a1 : α1) (a2 : α2) (s : InterpState) :
    (Except E β × InterpState) × guarded_function (α1 × α2) β E :=
  let gs := ops.construct s
  ((gf.fn_ (a1, a2) gs.2, ops.destroy gs.1 gs.2), gf)

/-- `result_type operator()(A1 a1, A2 a2, A3 a3)`. -/
def guarded_function.call3 {G α1 α2 α3 β E : Type} (ops : GuardOps G)
    (gf : guarded_function (α1 × α2 × α3) β E) (a1 : α1) (a2 : α2) (a3 : α3)
    (s : InterpState) :
    (Except E β × InterpState) × guarded_function (α1 × α2 × α3) β E :=
  let gs := ops.construct s
  ((gf.fn_ (a1, a2, a3) gs.2, ops.destroy gs.1 gs.2), gf)

/-- `result_type operator()(A1 a1, A2 a2, A3 a3, A4 a4)`. -/
def guarded_function.call4 {G α1 α2 α3 α4 β E : Type} (ops : GuardOps G)
    (gf : guarded_function (α1 × α2 × α3 × α4) β E) (a1 : α1) (a2 : α2)
    (a3 : α3) (a4 : α4) (s : InterpState) :
    (Except E β × InterpState) × guarded_function (α1 × α2 × α3 × α4) β E :=
  let gs := ops.construct s
  ((gf.fn_ (a1, a2, a3, a4) gs.2, ops.destroy gs.1 gs.2), gf)

/-- Symbolic C++ types, for the compile-time signature machinery. -/
inductive CppTy where
  | base (name : String)
  | ptr (t : CppTy)
deriving DecidableEq, Repr

/-- The compile-time shape of a wrappable callable `Fn`: a free function
pointer `R (*)(A1..An)`, a pointer to member function `R (C::*)(A1..An)`,
or a `boost::function<R (A1..An)>`. -/
inductive FnShape where
  | freeFn (r : CppTy) (args : List CppTy)
  | memFn (c : CppTy) (r : CppTy) (args : List CppTy)
  | boostFn (r : CppTy) (args : List CppTy)
deriving DecidableEq, Repr

/-- `detail::mpl_signature<Fn>::type`, i.e.
`boost::function_types::components<Signature, add_pointer<_>>` for
function pointers (the class transform turns the member class `C` into
`C*`), and plain `components<Signature>` for `boost::function`:
  `R (*)(A1)    => [R, A1]`
  `R (C::*)(A1) => [R, C*, A1]`
  `boost::function<R (A1)> => [R, A1]`. -/
def mpl_signature : FnShape → List CppTy
  | FnShape.freeFn r as => r :: as
  | FnShape.memFn c r as => r :: CppTy.ptr c :: as
  | FnShape.boostFn r as => r :: as

/-- A synthesized free-function signature: result type and parameter
types. -/
structure FnSignature where
  result : CppTy
  args : List CppTy
deriving DecidableEq, Repr

/-- `boost::function_types::function_type<Components>::type`: rebuilds a
free-function signature from an mpl component sequence
(`R, C*, A1 => R (*)(C*, A1)`).  A component sequence produced by
`mpl_signature` is always nonempty; the `[]` case is an unreachable
default. -/
def function_type : List CppTy → FnSignature
  | [] => ⟨CppTy.base "void", []⟩
  | r :: as => ⟨r, as⟩

/-- A boost.python call policy, treated as an opaque configuration
value. -/
structure Policy where
  name : String
deriving DecidableEq, Repr

/-- `boost::python::default_call_policies()`. -/
def default_call_policies : Policy :=
  ⟨"default_call_policies"⟩

/-- A native callable as handed to the factory: its compile-time shape
together with its runtime behaviour in adapted (free-function) form —
for a member function the first component of `γ` is the owning
instance. -/
structure CppFn (γ β E : Type) where
  shape : FnShape
  run : γ → InterpState → Except E β

/-- The interpreter-callable object returned by
`boost::python::make_function`: it packages the guarded functor, the
call policy and the synthesized signature components. -/
structure PyCallable (γ β E : Type) where
  fn : guarded_function γ β E
  policy : Policy
  signature : List CppTy

/-- `boost::python::make_function(f, policy, signature)`. -/
def make_function {γ β E : Type} (gf : guarded_function γ β E)
    (policy : Policy) (sig : List CppTy) : PyCallable γ β E :=
  ⟨gf, policy, sig⟩

/-- `detail::with_aux<Guard>(fn, policy)`: decomposes `Fn` with
`mpl_signature`, synthesizes the free-function signature, and hands a
`guarded_function` wrapping `fn` to `make_function` together with the
policy and the signature components. -/
def with_aux {γ β E : Type} (fn : CppFn γ β E) (policy : Policy) :
    PyCallable γ β E :=
  make_function (guarded_function.ofFn fn.run) policy (mpl_signature fn.shape)

/-- `with<Guard>(fn, policy)` (the keyword `with` is reserved in Lean,
hence the suffix): delegates to `detail::with_aux`. -/
def with_policy {γ β E : Type} (fn : CppFn γ β E) (policy : Policy) :
    PyCallable γ β E :=
  with_aux fn policy

/-- `with<Guard>(fn)`:
`return with<Guard>(fn, boost::python::default_call_policies());`. -/
def with_default {γ β E : Type} (fn : CppFn γ β E) : PyCallable γ β E :=
  with_policy fn default_call_policies

/-- The adaptation `boost::function<R (C*, A1..)>` performs when
constructed from a pointer to member function: the synthesized free
form takes the owning instance as its first argument and invokes the
member on it. -/
def memberToFree {ι α β E : Type} (mf : ι → α → InterpState → Except E β) :
    ι × α → InterpState → Except E β :=
  fun p s => mf p.1 p.2 s

/-- `N` successive invocations of the same guarded wrapper (arity one),
each threading the interpreter state left by the previous one. -/
def iterCalls {α β E : Type} (gf : guarded_function α β E) (args : List α)
    (s : InterpState) : InterpState :=
  args.foldl (fun t a => (gf.call1 no_gil.ops a t).1.2) s

/-- The trace fragment `k` consecutive guard lifetimes append when the
fresh-token counter starts at `n0`: the pairs
`release n0, restore n0, release (n0+1), restore (n0+1), ...`, each
restore carrying the token of the release performed by the same guard
instance. -/
def guardEventPairs : Nat → Nat → List GilEvent
  | _, 0 => []
  | n0, Nat.succ k =>
      GilEvent.release ⟨n0⟩ :: GilEvent.restore ⟨n0⟩ :: guardEventPairs (n0 + 1) k

/-- Number of release events in a trace. -/
def countReleases : List GilEvent → Nat
  | [] => 0
  | GilEvent.release _ :: tr => countReleases tr + 1
  | GilEvent.restore _ :: tr => countReleases tr

/-- Number of restore events in a trace. -/
def countRestores : List GilEvent → Nat
  | [] => 0
  | GilEvent.release _ :: tr => countRestores tr
  | GilEvent.restore _ :: tr => countRestores tr + 1

/-- A concrete starting state for witnesses: GIL held, counter at 0,
empty trace. -/
def startState : InterpState :=
  ⟨true, 0, []⟩

/-- A concrete nullary callable returning 7. -/
def probe0 : Unit → InterpState → Except Unit Nat :=
  fun _ _ => Except.ok 7

/-- A concrete unary callable: successor. -/
def probe1 : Nat → InterpState → Except Unit Nat :=
  fun n _ => Except.ok (n + 1)

/-- A concrete binary callable: addition (the specification's
`add(a,b) = a+b` scenario). -/
def probe2 : Nat × Nat → InterpState → Except Unit Nat :=
  fun p _ => Except.ok (p.1 + p.2)

/-- A concrete ternary callable: three-way sum. -/
def probe3 : Nat × Nat × Nat → InterpState → Except Unit Nat :=
  fun p _ => Except.ok (p.1 + p.2.1 + p.2.2)

/-- A concrete four-argument callable: four-way sum. -/
def probe4 : Nat × Nat × Nat × Nat → InterpState → Except Unit Nat :=
  fun p _ => Except.ok (p.1 + p.2.1 + p.2.2.1 + p.2.2.2)

/-- A concrete nullary callable that raises `RuntimeFailure("x")` (the
specification's failing scenario). -/
def probeErr0 : Unit → InterpState → Except String Nat :=
  fun _ _ => Except.error "x"

/-- A concrete unary callable that always raises. -/
def probeErr1 : Nat → InterpState → Except String Nat :=
  fun _ _ => Except.error "x"

/-- A concrete binary callable that always raises. -/
def probeErr2 : Nat × Nat → InterpState → Except String Nat :=
  fun _ _ => Except.error "x"

/-- A concrete ternary callable that always raises. -/
def probeErr3 : Nat × Nat × Nat → InterpState → Except String Nat :=
  fun _ _ => Except.error "x"

/-- A concrete four-argument callable that always raises. -/
def probeErr4 : Nat × Nat × Nat × Nat → InterpState → Except String Nat :=
  fun _ _ => Except.error "x"

/-! ## Helper lemmas -/

/-- A full guard lifetime (construct then destroy) appends exactly a
release event followed by a restore event carrying the same fresh
token. -/
theorem destroy_construct_trace (s : InterpState) :
    (no_gil.destroy (no_gil.construct s).1 (no_gil.construct s).2).trace =
      s.trace ++ [GilEvent.release ⟨s.nextId⟩, GilEvent.restore ⟨s.nextId⟩] := by
  simp [no_gil.construct, no_gil.destroy, PyEval_SaveThread, PyEval_RestoreThread]

/-- The interpreter state after one arity-one invocation of the guarded
wrapper: GIL held again, token counter advanced by one, trace extended
by one matched release/restore pair. -/
theorem call1_state_eq {α1 β E : Type} (gf : guarded_function α1 β E)
    (a1 : α1) (s : InterpState) :
    (gf.call1 no_gil.ops a1 s).1.2 =
      ⟨true, s.nextId + 1,
       s.trace ++ [GilEvent.release ⟨s.nextId⟩, GilEvent.restore ⟨s.nextId⟩]⟩ := by
  simp [guarded_function.call1, no_gil.ops, no_gil.construct, no_gil.destroy,
        PyEval_SaveThread, PyEval_RestoreThread]

/-- Trace and token counter after a sequence of guarded invocations:
the trace grows by exactly the matched pairs `guardEventPairs`, one
pair per invocation. -/
theorem iterCalls_trace_nextId {α β E : Type} (gf : guarded_function α β E)
    (args : List α) (s : InterpState) :
    (iterCalls gf args s).trace = s.trace ++ guardEventPairs s.nextId args.length ∧
    (iterCalls gf args s).nextId = s.nextId + args.length := by
  induction args generalizing s with
  | nil => simp [iterCalls, guardEventPairs]
  | cons a as ih =>
      have h2 := ih ((gf.call1 no_gil.ops a s).1.2)
      rw [call1_state_eq] at h2
      refine ⟨?_, ?_⟩
      · show (iterCalls gf as ((gf.call1 no_gil.ops a s).1.2)).trace = _
        rw [call1_state_eq, h2.1]
        simp [guardEventPairs, List.append_assoc]
      · show (iterCalls gf as ((gf.call1 no_gil.ops a s).1.2)).nextId = _
        rw [call1_state_eq, h2.2]
        simp
        omega

/-- `k` matched guard-event pairs contain exactly `k` releases. -/
theorem countReleases_guardEventPairs (n0 k : Nat) :
    countReleases (guardEventPairs n0 k) = k := by
  induction k generalizing n0 with
  | zero => rfl
  | succ k ih => simp [guardEventPairs, countReleases, ih]

/-- `k` matched guard-event pairs contain exactly `k` restores. -/
theorem countRestores_guardEventPairs (n0 k : Nat) :
    countRestores (guardEventPairs n0 k) = k := by
  induction k generalizing n0 with
  | zero => rfl
  | succ k ih => simp [guardEventPairs, countRestores, ih]

/-! ## Claim theorems -/

/-- C1: for every supported arity `n` with `0 ≤ n ≤ 4` and every
callable `fn`, invoking the guarded wrapper produced from `fn` with
arguments `a1..an` returns the same result as invoking `fn` directly
with `a1..an`, whenever `fn`'s call completes without raising an error
(one conjunct per arity; "fn returns `v` without error" is the
hypothesis that `fn` on those arguments yields `Except.ok v`). -/
theorem wrapped_call_agrees_with_direct_call :
    (∀ (β E : Type) (fn : Unit → InterpState → Except E β)
      (s : InterpState) (v : β),
      (∀ t, fn () t = Except.ok v) →
      ((guarded_function.ofFn fn).call0 no_gil.ops s).1.1 = Except.ok v) ∧
    (∀ (α1 β E : Type) (fn : α1 → InterpState → Except E β) (a1 : α1)
      (s : InterpState) (v : β),
      (∀ t, fn a1 t = Except.ok v) →
      ((guarded_function.ofFn fn).call1 no_gil.ops a1 s).1.1 = Except.ok v) ∧
    (∀ (α1 α2 β E : Type) (fn : α1 × α2 → InterpState → Except E β)
      (a1 : α1) (a2 : α2) (s : InterpState) (v : β),
      (∀ t, fn (a1, a2) t = Except.ok v) →
      ((guarded_function.ofFn fn).call2 no_gil.ops a1 a2 s).1.1 = Except.ok v) ∧
    (∀ (α1 α2 α3 β E : Type) (fn : α1 × α2 × α3 → InterpState → Except E β)
      (a1 : α1) (a2 : α2) (a3 : α3) (s : InterpState) (v : β),
      (∀ t, fn (a1, a2, a3) t = Except.ok v) →
      ((guarded_function.ofFn fn).call3 no_gil.ops a1 a2 a3 s).1.1 = Except.ok v) ∧
    (∀ (α1 α2 α3 α4 β E : Type) (fn : α1 × α2 × α3 × α4 → InterpState → Except E β)
      (a1 : α1) (a2 : α2) (a3 : α3) (a4 : α4) (s : InterpState) (v : β),
      (∀ t, fn (a1, a2, a3, a4) t = Except.ok v) →
      ((guarded_function.ofFn fn).call4 no_gil.ops a1 a2 a3 a4 s).1.1 = Except.ok v) := by
  exact ⟨fun β E fn s v h => h _,
         fun α1 β E fn a1 s v h => h _,
         fun α1 α2 β E fn a1 a2 s v h => h _,
         fun α1 α2 α3 β E fn a1 a2 a3 s v h => h _,
         fun α1 α2 α3 α4 β E fn a1 a2 a3 a4 s v h => h _⟩

/-- Witness for C1: concrete successful calls at every arity,
including the specification's `add(2,3) = 5` scenario. -/
theorem wrapped_call_agrees_with_direct_call_witness :
    ((guarded_function.ofFn probe0).call0 no_gil.ops startState).1.1 = Except.ok 7 ∧
    ((guarded_function.ofFn probe1).call1 no_gil.ops 2 startState).1.1 = Except.ok 3 ∧
    ((guarded_function.ofFn probe2).call2 no_gil.ops 2 3 startState).1.1 = Except.ok 5 ∧
    ((guarded_function.ofFn probe3).call3 no_gil.ops 1 2 3 startState).1.1 = Except.ok 6 ∧
    ((guarded_function.ofFn probe4).call4 no_gil.ops 1 2 3 4 startState).1.1 = Except.ok 10 := by
  have h := wrapped_call_agrees_with_direct_call
  exact ⟨h.1 Nat Unit probe0 startState 7 (fun _ => rfl),
         h.2.1 Nat Nat Unit probe1 2 startState 3 (fun _ => rfl),
         h.2.2.1 Nat Nat Nat Unit probe2 2 3 startState 5 (fun _ => rfl),
         h.2.2.2.1 Nat Nat Nat Nat Unit probe3 1 2 3 startState 6 (fun _ => rfl),
         h.2.2.2.2 Nat Nat Nat Nat Nat Unit probe4 1 2 3 4 startState 10 (fun _ => rfl)⟩

/-- C2: for every invocation of the guarded wrapper, the guard's
release runs before the wrapped callable is invoked (the callable is
applied to the post-release state, in which the GIL is not held), and
the guard's restore runs after the callable returns and before the
wrapper returns (the final state holds the GIL again and its trace
ends with the release/restore pair).  The callable is universally
quantified, so this covers both normal and failing (`Except.error`)
paths. -/
theorem gil_released_during_inner_call_and_restored :
    (∀ s : InterpState, (no_gil.construct s).2.gilHeld = false) ∧
    (∀ (β E : Type) (gf : guarded_function Unit β E) (s : InterpState),
      (gf.call0 no_gil.ops s).1.1 = gf.fn_ () (no_gil.construct s).2 ∧
      (gf.call0 no_gil.ops s).1.2.gilHeld = true ∧
      (gf.call0 no_gil.ops s).1.2.trace =
        s.trace ++ [GilEvent.release ⟨s.nextId⟩, GilEvent.restore ⟨s.nextId⟩]) ∧
    (∀ (α1 β E : Type) (gf : guarded_function α1 β E) (a1 : α1) (s : InterpState),
      (gf.call1 no_gil.ops a1 s).1.1 = gf.fn_ a1 (no_gil.construct s).2 ∧
      (gf.call1 no_gil.ops a1 s).1.2.gilHeld = true ∧
      (gf.call1 no_gil.ops a1 s).1.2.trace =
        s.trace ++ [GilEvent.release ⟨s.nextId⟩, GilEvent.restore ⟨s.nextId⟩]) ∧
    (∀ (α1 α2 β E : Type) (gf : guarded_function (α1 × α2) β E)
      (a1 : α1) (a2 : α2) (s : InterpState),
      (gf.call2 no_gil.ops a1 a2 s).1.1 = gf.fn_ (a1, a2) (no_gil.construct s).2 ∧
      (gf.call2 no_gil.ops a1 a2 s).1.2.gilHeld = true ∧
      (gf.call2 no_gil.ops a1 a2 s).1.2.trace =
        s.trace ++ [GilEvent.release ⟨s.nextId⟩, GilEvent.restore ⟨s.nextId⟩]) ∧
    (∀ (α1 α2 α3 β E : Type) (gf : guarded_function (α1 × α2 × α3) β E)
      (a1 : α1) (a2 : α2) (a3 : α3) (s : InterpState),
      (gf.call3 no_gil.ops a1 a2 a3 s).1.1 = gf.fn_ (a1, a2, a3) (no_gil.construct s).2 ∧
      (gf.call3 no_gil.ops a1 a2 a3 s).1.2.gilHeld = true ∧
      (gf.call3 no_gil.ops a1 a2 a3 s).1.2.trace =
        s.trace ++ [GilEvent.release ⟨s.nextId⟩, GilEvent.restore ⟨s.nextId⟩]) ∧
    (∀ (α1 α2 α3 α4 β E : Type) (gf : guarded_function (α1 × α2 × α3 × α4) β E)
      (a1 : α1) (a2 : α2) (a3 : α3) (a4 : α4) (s : InterpState),
      (gf.call4 no_gil.ops a1 a2 a3 a4 s).1.1 =
        gf.fn_ (a1, a2, a3, a4) (no_gil.construct s).2 ∧
      (gf.call4 no_gil.ops a1 a2 a3 a4 s).1.2.gilHeld = true ∧
      (gf.call4 no_gil.ops a1 a2 a3 a4 s).1.2.trace =
        s.trace ++ [GilEvent.release ⟨s.nextId⟩, GilEvent.restore ⟨s.nextId⟩]) := by
  refine ⟨fun s => rfl, ?_, ?_, ?_, ?_, ?_⟩ <;>
    intros <;> exact ⟨rfl, rfl, destroy_construct_trace _⟩

/-- C3: for every invocation in which the wrapped callable raises, the
same error value propagates out of the wrapper, and the guard's
restore still runs on that path: the final state holds the GIL again
and the trace ends with the matched release/restore pair (one conjunct
per arity). -/
theorem error_propagates_and_restore_still_runs :
    (∀ (β E : Type) (fn : Unit → InterpState → Except E β)
      (s : InterpState) (e : E),
      (∀ t, fn () t = Except.error e) →
      ((guarded_function.ofFn fn).call0 no_gil.ops s).1.1 = Except.error e ∧
      ((guarded_function.ofFn fn).call0 no_gil.ops s).1.2.gilHeld = true ∧
      ((guarded_function.ofFn fn).call0 no_gil.ops s).1.2.trace =
        s.trace ++ [GilEvent.release ⟨s.nextId⟩, GilEvent.restore ⟨s.nextId⟩]) ∧
    (∀ (α1 β E : Type) (fn : α1 → InterpState → Except E β) (a1 : α1)
      (s : InterpState) (e : E),
      (∀ t, fn a1 t = Except.error e) →
      ((guarded_function.ofFn fn).call1 no_gil.ops a1 s).1.1 = Except.error e ∧
      ((guarded_function.ofFn fn).call1 no_gil.ops a1 s).1.2.gilHeld = true ∧
      ((guarded_function.ofFn fn).call1 no_gil.ops a1 s).1.2.trace =
        s.trace ++ [GilEvent.release ⟨s.nextId⟩, GilEvent.restore ⟨s.nextId⟩]) ∧
    (∀ (α1 α2 β E : Type) (fn : α1 × α2 → InterpState → Except E β)
      (a1 : α1) (a2 : α2) (s : InterpState) (e : E),
      (∀ t, fn (a1, a2) t = Except.error e) →
      ((guarded_function.ofFn fn).call2 no_gil.ops a1 a2 s).1.1 = Except.error e ∧
      ((guarded_function.ofFn fn).call2 no_gil.ops a1 a2 s).1.2.gilHeld = true ∧
      ((guarded_function.ofFn fn).call2 no_gil.ops a1 a2 s).1.2.trace =
        s.trace ++ [GilEvent.release ⟨s.nextId⟩, GilEvent.restore ⟨s.nextId⟩]) ∧
    (∀ (α1 α2 α3 β E : Type) (fn : α1 × α2 × α3 → InterpState → Except E β)
      (a1 : α1) (a2 : α2) (a3 : α3) (s : InterpState) (e : E),
      (∀ t, fn (a1, a2, a3) t = Except.error e) →
      ((guarded_function.ofFn fn).call3 no_gil.ops a1 a2 a3 s).1.1 = Except.error e ∧
      ((guarded_function.ofFn fn).call3 no_gil.ops a1 a2 a3 s).1.2.gilHeld = true ∧
      ((guarded_function.ofFn fn).call3 no_gil.ops a1 a2 a3 s).1.2.trace =
        s.trace ++ [GilEvent.release ⟨s.nextId⟩, GilEvent.restore ⟨s.nextId⟩]) ∧
    (∀ (α1 α2 α3 α4 β E : Type) (fn : α1 × α2 × α3 × α4 → InterpState → Except E β)
      (a1 : α1) (a2 : α2) (a3 : α3) (a4 : α4) (s : InterpState) (e : E),
      (∀ t, fn (a1, a2, a3, a4) t = Except.error e) →
      ((guarded_function.ofFn fn).call4 no_gil.ops a1 a2 a3 a4 s).1.1 = Except.error e ∧
      ((guarded_function.ofFn fn).call4 no_gil.ops a1 a2 a3 a4 s).1.2.gilHeld = true ∧
      ((guarded_function.ofFn fn).call4 no_gil.ops a1 a2 a3 a4 s).1.2.trace =
        s.trace ++ [GilEvent.release ⟨s.nextId⟩, GilEvent.restore ⟨s.nextId⟩]) := by
  refine ⟨?_, ?_, ?_, ?_, ?_⟩ <;>
    intros <;> exact ⟨by apply_assumption, rfl, destroy_construct_trace _⟩

/-- Witness for C3: concrete raising calls at every arity — the error
value `"x"` comes out unchanged and the GIL is restored. -/
theorem error_propagates_and_restore_still_runs_witness :
    (((guarded_function.ofFn probeErr0).call0 no_gil.ops startState).1.1 = Except.error "x" ∧
     ((guarded_function.ofFn probeErr0).call0 no_gil.ops startState).1.2.gilHeld = true ∧
     ((guarded_function.ofFn probeErr0).call0 no_gil.ops startState).1.2.trace =
       startState.trace ++ [GilEvent.release ⟨startState.nextId⟩,
                            GilEvent.restore ⟨startState.nextId⟩]) ∧
    (((guarded_function.ofFn probeErr1).call1 no_gil.ops 2 startState).1.1 = Except.error "x" ∧
     ((guarded_function.ofFn probeErr1).call1 no_gil.ops 2 startState).1.2.gilHeld = true ∧
     ((guarded_function.ofFn probeErr1).call1 no_gil.ops 2 startState).1.2.trace =
       startState.trace ++ [GilEvent.release ⟨startState.nextId⟩,
                            GilEvent.restore ⟨startState.nextId⟩]) ∧
    (((guarded_function.ofFn probeErr2).call2 no_gil.ops 2 3 startState).1.1 = Except.error "x" ∧
     ((guarded_function.ofFn probeErr2).call2 no_gil.ops 2 3 startState).1.2.gilHeld = true ∧
     ((guarded_function.ofFn probeErr2).call2 no_gil.ops 2 3 startState).1.2.trace =
       startState.trace ++ [GilEvent.release ⟨startState.nextId⟩,
                            GilEvent.restore ⟨startState.nextId⟩]) ∧
    (((guarded_function.ofFn probeErr3).call3 no_gil.ops 1 2 3 startState).1.1 = Except.error "x" ∧
     ((guarded_function.ofFn probeErr3).call3 no_gil.ops 1 2 3 startState).1.2.gilHeld = true ∧
     ((guarded_function.ofFn probeErr3).call3 no_gil.ops 1 2 3 startState).1.2.trace =
       startState.trace ++ [GilEvent.release ⟨startState.nextId⟩,
                            GilEvent.restore ⟨startState.nextId⟩]) ∧
    (((guarded_function.ofFn probeErr4).call4 no_gil.ops 1 2 3 4 startState).1.1 = Except.error "x" ∧
     ((guarded_function.ofFn probeErr4).call4 no_gil.ops 1 2 3 4 startState).1.2.gilHeld = true ∧
     ((guarded_function.ofFn probeErr4).call4 no_gil.ops 1 2 3 4 startState).1.2.trace =
       startState.trace ++ [GilEvent.release ⟨startState.nextId⟩,
                            GilEvent.restore ⟨startState.nextId⟩]) := by
  have h := error_propagates_and_restore_still_runs
  exact ⟨h.1 Nat String probeErr0 startState "x" (fun _ => rfl),
         h.2.1 Nat Nat String probeErr1 2 startState "x" (fun _ => rfl),
         h.2.2.1 Nat Nat Nat String probeErr2 2 3 startState "x" (fun _ => rfl),
         h.2.2.2.1 Nat Nat Nat Nat String probeErr3 1 2 3 startState "x" (fun _ => rfl),
         h.2.2.2.2 Nat Nat Nat Nat Nat String probeErr4 1 2 3 4 startState "x"
           (fun _ => rfl)⟩

/-- C4: release and restore are strictly paired one-to-one with guard
lifetimes: `N` invocations of the guarded wrapper extend the trace by
exactly `guardEventPairs`, in which each restore immediately follows
the release performed by the same guard instance and carries the same
token, and which contains exactly `N` releases and exactly `N`
restores. -/
theorem n_invocations_n_release_restore_pairs :
    ∀ (α β E : Type) (gf : guarded_function α β E) (args : List α)
      (s : InterpState),
      (iterCalls gf args s).trace =
        s.trace ++ guardEventPairs s.nextId args.length ∧
      countReleases (guardEventPairs s.nextId args.length) = args.length ∧
      countRestores (guardEventPairs s.nextId args.length) = args.length := by
  intro α β E gf args s
  exact ⟨(iterCalls_trace_nextId gf args s).1,
         countReleases_guardEventPairs s.nextId args.length,
         countRestores_guardEventPairs s.nextId args.length⟩

/-- C5: for a pointer-to-member-function of class `C`, `mpl_signature`
decomposes `R (C::*)(A1..An)` into `R, C*, A1..An`, so the synthesized
free-function signature produced by `function_type` (and exposed by
the factory) has the owning-instance pointer `C*` as its first
parameter; and invoking the produced callable with
`(instance, a1..an)` yields the same result as calling the member
function directly on `instance` with those arguments. -/
theorem member_function_first_param_is_instance :
    (∀ (c r : CppTy) (as : List CppTy),
      mpl_signature (FnShape.memFn c r as) = r :: CppTy.ptr c :: as ∧
      function_type (mpl_signature (FnShape.memFn c r as)) =
        ⟨r, CppTy.ptr c :: as⟩) ∧
    (∀ (γ β E : Type) (c r : CppTy) (as : List CppTy)
      (body : γ → InterpState → Except E β) (p : Policy),
      (with_policy ⟨FnShape.memFn c r as, body⟩ p).signature =
        r :: CppTy.ptr c :: as) ∧
    (∀ (ι α β E : Type) (mfp : ι → α → Except E β) (inst : ι) (a : α)
      (s : InterpState),
      ((guarded_function.ofFn (memberToFree (fun i x _ => mfp i x))).call2
          no_gil.ops inst a s).1.1 = mfp inst a) := by
  exact ⟨fun c r as => ⟨rfl, rfl⟩,
         fun γ β E c r as body p => rfl,
         fun ι α β E mfp inst a s => rfl⟩

/-- C6 counterexample: `no_gil` declares no copy constructor and does
not delete it, so the implicitly-generated memberwise copy yields a
second guard holding the same saved-state token; destroying the
original and the copy yields two restores of that one token after a
single release. -/
theorem no_gil_copy_duplicates_token :
    (no_gil.copy (no_gil.construct startState).1)._state =
      (no_gil.construct startState).1._state ∧
    (no_gil.destroy (no_gil.copy (no_gil.construct startState).1)
        (no_gil.destroy (no_gil.construct startState).1
          (no_gil.construct startState).2)).trace =
      [GilEvent.release ⟨0⟩, GilEvent.restore ⟨0⟩, GilEvent.restore ⟨0⟩] := by
  exact ⟨rfl, rfl⟩

/-- C6 amended: provided a guard is used as the wrapper uses it — a
scope-local instance that is never copied — its lifetime performs
exactly one release at construction and exactly one restore at
destruction, the restore following the release and carrying the token
of that same guard instance. -/
theorem guard_lifetime_release_restore_once :
    ∀ s : InterpState,
      (no_gil.construct s).1._state = ⟨s.nextId⟩ ∧
      (no_gil.destroy (no_gil.construct s).1 (no_gil.construct s).2).trace =
        s.trace ++ [GilEvent.release ⟨s.nextId⟩, GilEvent.restore ⟨s.nextId⟩] ∧
      countReleases [GilEvent.release (⟨s.nextId⟩ : PyThreadState),
        GilEvent.restore ⟨s.nextId⟩] = 1 ∧
      countRestores [GilEvent.release (⟨s.nextId⟩ : PyThreadState),
        GilEvent.restore ⟨s.nextId⟩] = 1 := by
  intro s
  exact ⟨rfl, destroy_construct_trace s, rfl, rfl⟩

/-- C7: the guard stores exactly the token `PyEval_SaveThread` returns
at construction and passes exactly that stored token, unchanged, to
`PyEval_RestoreThread` at destruction; over a full lifetime the
restore event carries the very token the release returned. -/
theorem token_passed_unchanged :
    (∀ s : InterpState,
      (no_gil.construct s).1._state = (PyEval_SaveThread s).1) ∧
    (∀ (g : no_gil) (s : InterpState),
      no_gil.destroy g s = PyEval_RestoreThread g._state s) ∧
    (∀ s : InterpState,
      (no_gil.destroy (no_gil.construct s).1 (no_gil.construct s).2).trace =
        s.trace ++ [GilEvent.release (PyEval_SaveThread s).1,
                    GilEvent.restore (PyEval_SaveThread s).1]) := by
  exact ⟨fun s => rfl, fun g s => rfl, fun s => destroy_construct_trace s⟩

/-- C8: the one-argument factory overload produces exactly the result
of the two-argument overload applied to the callable and the
interpreter's default call policy. -/
theorem with_single_argument_uses_default_policy :
    ∀ (γ β E : Type) (fn : CppFn γ β E),
      with_default fn = with_policy fn default_call_policies := by
  intro γ β E fn
  rfl

/-- C9: the wrapper stores its callable by value at construction
(`ofFn` stores exactly `fn`), every call operator leaves the wrapper's
stored state unchanged (the functor after the call is the functor
before it, at every arity), and for a callable that does not read the
interpreter state the result of an invocation is independent of the
interpreter state, i.e. depends only on the arguments and `fn`. -/
theorem wrapper_stores_fn_and_is_stateless :
    (∀ (γ β E : Type) (fn : γ → InterpState → Except E β),
      (guarded_function.ofFn fn : guarded_function γ β E).fn_ = fn) ∧
    (∀ (β E : Type) (gf : guarded_function Unit β E) (s : InterpState),
      (gf.call0 no_gil.ops s).2 = gf) ∧
    (∀ (α1 β E : Type) (gf : guarded_function α1 β E) (a1 : α1)
      (s : InterpState),
      (gf.call1 no_gil.ops a1 s).2 = gf) ∧
    (∀ (α1 α2 β E : Type) (gf : guarded_function (α1 × α2) β E)
      (a1 : α1) (a2 : α2) (s : InterpState),
      (gf.call2 no_gil.ops a1 a2 s).2 = gf) ∧
    (∀ (α1 α2 α3 β E : Type) (gf : guarded_function (α1 × α2 × α3) β E)
      (a1 : α1) (a2 : α2) (a3 : α3) (s : InterpState),
      (gf.call3 no_gil.ops a1 a2 a3 s).2 = gf) ∧
    (∀ (α1 α2 α3 α4 β E : Type) (gf : guarded_function (α1 × α2 × α3 × α4) β E)
      (a1 : α1) (a2 : α2) (a3 : α3) (a4 : α4) (s : InterpState),
      (gf.call4 no_gil.ops a1 a2 a3 a4 s).2 = gf) ∧
    (∀ (α1 β E : Type) (f : α1 → Except E β) (a1 : α1) (s t : InterpState),
      ((guarded_function.ofFn (fun x _ => f x) :
          guarded_function α1 β E).call1 no_gil.ops a1 s).1.1 =
      ((guarded_function.ofFn (fun x _ => f x) :
          guarded_function α1 β E).call1 no_gil.ops a1 t).1.1) := by
  refine ⟨?_, ?_, ?_, ?_, ?_, ?_, ?_⟩ <;> intros <;> rfl

/-- C10: every call operator receives its arguments by value and passes
those values on to the stored callable in the same left-to-right order:
at each arity the wrapper's result is exactly the stored callable
applied to the tuple of the given arguments, in order, at the
post-release state. -/
theorem arguments_forwarded_by_value_in_order :
    (∀ (β E : Type) (gf : guarded_function Unit β E) (s : InterpState),
      (gf.call0 no_gil.ops s).1.1 = gf.fn_ () (no_gil.construct s).2) ∧
    (∀ (α1 β E : Type) (gf : guarded_function α1 β E) (a1 : α1)
      (s : InterpState),
      (gf.call1 no_gil.ops a1 s).1.1 = gf.fn_ a1 (no_gil.construct s).2) ∧
    (∀ (α1 α2 β E : Type) (gf : guarded_function (α1 × α2) β E)
      (a1 : α1) (a2 : α2) (s : InterpState),
      (gf.call2 no_gil.ops a1 a2 s).1.1 =
        gf.fn_ (a1, a2) (no_gil.construct s).2) ∧
    (∀ (α1 α2 α3 β E : Type) (gf : guarded_function (α1 × α2 × α3) β E)
      (a1 : α1) (a2 : α2) (a3 : α3) (s : InterpState),
      (gf.call3 no_gil.ops a1 a2 a3 s).1.1 =
        gf.fn_ (a1, a2, a3) (no_gil.construct s).2) ∧
    (∀ (α1 α2 α3 α4 β E : Type) (gf : guarded_function (α1 × α2 × α3 × α4) β E)
      (a1 : α1) (a2 : α2) (a3 : α3) (a4 : α4) (s : InterpState),
      (gf.call4 no_gil.ops a1 a2 a3 a4 s).1.1 =
        gf.fn_ (a1, a2, a3, a4) (no_gil.construct s).2) := by
  refine ⟨?_, ?_, ?_, ?_, ?_⟩ <;> intros <;> rfl

end WithGuard
